import Mathlib

/-!
# Verification of the remake debugger command core

Shallow embedding of the debugger command interface of the remake
(GNU Make variant) build tool, from `src/debugger/cmd.c` and
`debugger/command/set.h`, together with theorems checking the
natural-language specification against it.

C strings are modelled as `List Char` (the bytes before the NUL
terminator); C ints used as booleans are modelled as `Bool`; the
`(char *name, length)` pairs used by the variable hash table are
modelled as the byte sequence of the first `length` bytes of the
NUL-terminated buffer.
-/

namespace Remake

/-- Modelled from the spec: provenance tag on a variable binding
("Origin: provenance tag on a variable binding recording how/where it
was introduced (e.g., 'debugger')").  `o_debugger` is the origin this
core writes; the other constructors stand for bindings created
elsewhere (the enum itself lives outside `src/`). -/
inductive Origin where
  | o_default
  | o_env
  | o_file
  | o_debugger
deriving DecidableEq, Repr

/-- Modelled from the spec: a variable binding
"VariableBinding (external): {name, value, originTag, location}".
`key` is the byte sequence the binding is hashed under (the first
`length` bytes of the name passed to `define_variable_in_set`); for
bindings created from ordinary NUL-terminated names it is exactly the
name's characters. -/
structure Variable where
  key : List Char
  value : List Char
  origin : Origin
deriving DecidableEq, Repr

/-- The global variable binding table (external collaborator). -/
abbrev VarSet := List Variable

/-- The `whitespace` macro of `cmd.c` line 82:
`(((c) == ' ') || ((c) == '\t'))`. -/
def whitespace (c : Char) : Bool :=
  c == ' ' || c == '\t'

/-- Modelled from the spec: the `get_word` helper ("parse the first
whitespace-delimited token").  It skips leading whitespace, returns the
token, and consumes the single delimiter that terminates the token
(the C helper overwrites that one character with NUL and advances past
it); it does not consume any further whitespace -- both in-source call
sites perform their own subsequent whitespace handling, which would be
dead code otherwise. -/
def get_word (s : List Char) : List Char × List Char :=
  let s1 := s.dropWhile (fun c => whitespace c)
  let w := s1.takeWhile (fun c => !whitespace c)
  let r := s1.dropWhile (fun c => !whitespace c)
  (w, match r with
      | [] => []
      | _ :: rest => rest)

/-- The loop `while (*psz_args && whitespace (*psz_args)) *psz_args += 1;`
of `cmd.c` lines 357-358 and `set.h` lines 77-78.  Note the body is
`*psz_args += 1` -- it increments the character pointed to, not the
pointer.  Since `' ' + 1 = '!'` and `'\t' + 1 = '\n'` are not
whitespace, the loop body runs at most once, so a single conditional
increment is an exact model of the loop. -/
def skip_ws_inc : List Char → List Char
  | [] => []
  | c :: r => if whitespace c then Char.ofNat (c.toNat + 1) :: r else c :: r

/-- The NUL character. -/
def nulChar : Char := Char.ofNat 0

/-- The byte sequence denoted by a `(char *name, length)` pair: the
first `length` bytes of the NUL-terminated buffer holding `name`.
Well-defined (and exercised by the code) only for
`length ≤ name.length + 1`; further bytes are modelled as NUL. -/
def cKey (name : List Char) (len : Nat) : List Char :=
  (name ++ List.replicate len nulChar).take len

/-- Modelled from the spec: the binding-table lookup
("lookup-by-name": find an existing binding by name).  The C interface
`lookup_variable (name, length)` keys on the byte range of the given
length. -/
def lookup_variable (vs : VarSet) (name : List Char) (len : Nat) : Option Variable :=
  (vs : List Variable).find? (fun v => v.key == cKey name len)

/-- Modelled from the spec: the binding-table write
("define-with-origin": define the binding, recording the origin tag).
`define_variable_in_set (name, length, value, origin, ...)` keys the
binding on the byte range of the given length, replacing an existing
binding with that key or creating a new one. -/
def define_variable_in_set (vs : VarSet) (name : List Char) (len : Nat)
    (value : List Char) (org : Origin) : VarSet :=
  let key := cKey name len
  if (vs : List Variable).any (fun v => v.key == key) then
    (vs : List Variable).map
      (fun v => if v.key == key then { v with value := value, origin := org } else v)
  else
    (vs : List Variable) ++ [⟨key, value, org⟩]

/-- Modelled from the spec: "if absent, retry after stripping one
leading sigil character from the name", the sigil being `$`
(`try_without_dollar`). -/
def try_without_dollar (vs : VarSet) (name : List Char) : Option Variable :=
  match name with
  | c :: rest => if c == '$' then lookup_variable vs rest rest.length else none
  | [] => none

/-- Control signals returned by command handlers and by the debugger
entry.  Modelled from the spec: "ControlSignal (closed enumeration):
continue-looping (ok / non-fatal-error), quit-debugger,
resume-build-execution" (the C enum `debug_return_t` lives outside
`src/`).  `readloop` and `cmdError` are the two continue-looping
values, `continueExec` resumes build execution. -/
inductive DebugReturn where
  | readloop
  | cmdError
  | continueExec
  | quitDebugger
deriving DecidableEq, Repr

/-- `dbg_cmd_set_var` of `cmd.c` lines 348-383.  `ef` stands for the
external `variable_expand` capability (resolve embedded variable
references in the value text); `expand` selects it, as in the C code.
The `psz_args` argument may be NULL (`none`).  User messages are not
modelled; the returned pair is the updated binding table and the
control signal. -/
def dbg_cmd_set_var (ef : List Char → List Char) (psz_args : Option (List Char))
    (expand : Bool) (vs : VarSet) : VarSet × DebugReturn :=
  match psz_args with
  | none => (vs, DebugReturn.readloop)
  | some args =>
    if args.length = 0 then
      (vs, DebugReturn.readloop)
    else
      let psz_varname := (get_word args).1
      let u_len := psz_varname.length
      let rest := skip_ws_inc (get_word args).2
      match lookup_variable vs psz_varname u_len with
      | some p_v =>
        let psz_value := if expand then ef rest else rest
        (define_variable_in_set vs p_v.key u_len psz_value Origin.o_debugger,
         DebugReturn.readloop)
      | none =>
        match try_without_dollar vs psz_varname with
        | some p_v =>
          let psz_value := if expand then ef rest else rest
          (define_variable_in_set vs p_v.key u_len psz_value Origin.o_debugger,
           DebugReturn.readloop)
        | none => (vs, DebugReturn.readloop)

/-! ## Builtin toggle subsystem (`debugger/command/set.h`) -/

/-- Modelled from the spec: the prefix-abbreviation test of §4.1
("case-sensitive unique-prefix abbreviation against a small enumerated
option set, each option carrying its own minimum unambiguous prefix
length; a prefix shorter than the threshold or matching no option is
rejected").  `is_abbrev_of (s, w, min)` holds when `s` has length at
least `min` and is a prefix of `w`. -/
def is_abbrev_of (s w : List Char) (minLen : Nat) : Bool :=
  decide (minLen ≤ s.length) && s.isPrefixOf w

/-- Modelled from the spec: `on_off_toggle` -- "Accepts an argument of
'on', 'off', 'toggle' (flip)"; any other argument draws a message and
leaves the flag unchanged. -/
def on_off_toggle (arg : List Char) (b : Bool) : Bool :=
  if arg == "on".data then true
  else if arg == "off".data then false
  else if arg == "toggle".data then !b
  else b

/-- Modelled from the spec: `get_int` parses the argument of the
integer-valued `debug` option ("debug verbosity mask"); a string of
decimal digits parses to its value, anything else fails. -/
def get_int (s : List Char) : Option Int :=
  if s.length ≠ 0 && s.all Char.isDigit then
    some (Int.ofNat (s.foldl (fun a c => a * 10 + (c.toNat - 48)) 0))
  else
    none

/-- The externally owned global flags the `set` subcommands are bound
to (`set_subcommands`, `set.h` lines 31-62): `basename_filenames`,
`db_level`, `ignore_errors_flag`, `keep_going_flag`, `silent_flag`,
`no_shell_trace`.  All but `db_level` are used as booleans. -/
structure SetFlags where
  basename_filenames : Bool
  db_level : Int
  ignore_errors_flag : Bool
  keep_going_flag : Bool
  silent_flag : Bool
  no_shell_trace : Bool
deriving DecidableEq, Repr

/-- The state touched by the `set` command: the option flags and the
global variable binding table. -/
structure SetState where
  flags : SetFlags
  vars : VarSet
deriving DecidableEq, Repr

/-- `dbg_cmd_set` of `set.h` lines 64-128.  The argument text is parsed
into a first word and a remainder (with the `*psz_args += 1` loop of
lines 77-78, see `skip_ws_inc`), then matched against the option names
by `is_abbrev_of` with the literal thresholds of the source; an
unmatched word falls through to `dbg_cmd_set_var (psz_args, 1)` with
the remainder.  Note the `trace` branch with a nonempty argument passes
`&silent_flag` (line 120), exactly as the source does. -/
def dbg_cmd_set (ef : List Char → List Char) (psz_args : List Char)
    (st : SetState) : SetState × DebugReturn :=
  if psz_args.length = 0 then
    (st, DebugReturn.readloop)
  else
    let psz_varname := (get_word psz_args).1
    let rest := skip_ws_inc (get_word psz_args).2
    if is_abbrev_of psz_varname "variable".data 3 then
      let r := dbg_cmd_set_var ef (some rest) true st.vars
      ({ st with vars := r.1 }, r.2)
    else if is_abbrev_of psz_varname "basename".data 4 then
      let f := if rest.length = 0 then on_off_toggle "toggle".data st.flags.basename_filenames
               else on_off_toggle rest st.flags.basename_filenames
      ({ st with flags := { st.flags with basename_filenames := f } }, DebugReturn.readloop)
    else if is_abbrev_of psz_varname "debug".data 3 then
      match get_int rest with
      | some dbg_mask => ({ st with flags := { st.flags with db_level := dbg_mask } },
                          DebugReturn.readloop)
      | none => (st, DebugReturn.readloop)
    else if is_abbrev_of psz_varname "ignore-errors".data 3 then
      let f := if rest.length = 0 then on_off_toggle "toggle".data st.flags.ignore_errors_flag
               else on_off_toggle rest st.flags.ignore_errors_flag
      ({ st with flags := { st.flags with ignore_errors_flag := f } }, DebugReturn.readloop)
    else if is_abbrev_of psz_varname "keep-going".data 3 then
      let f := if rest.length = 0 then on_off_toggle "toggle".data st.flags.keep_going_flag
               else on_off_toggle rest st.flags.keep_going_flag
      ({ st with flags := { st.flags with keep_going_flag := f } }, DebugReturn.readloop)
    else if is_abbrev_of psz_varname "silent".data 3 then
      let f := if rest.length = 0 then on_off_toggle "toggle".data st.flags.silent_flag
               else on_off_toggle rest st.flags.silent_flag
      ({ st with flags := { st.flags with silent_flag := f } }, DebugReturn.readloop)
    else if is_abbrev_of psz_varname "trace".data 3 then
      if rest.length = 0 then
        ({ st with flags :=
            { st.flags with no_shell_trace := on_off_toggle "toggle".data st.flags.no_shell_trace } },
         DebugReturn.readloop)
      else
        ({ st with flags :=
            { st.flags with silent_flag := on_off_toggle rest st.flags.silent_flag } },
         DebugReturn.readloop)
    else
      let r := dbg_cmd_set_var ef (some rest) true st.vars
      ({ st with vars := r.1 }, r.2)

/-! ## Command registry and resolver (`cmd.c` lines 91-321) -/

/-- The double-quote character, `'"'`. -/
def dquoteChar : Char := Char.ofNat 34

/-- The backquote character. -/
def backquoteChar : Char := Char.ofNat 96

/-- The `commands` table of `cmd.c` lines 91-124: long command names
with their single-character short codes, in alphabetic order by name. -/
def commands : List (String × Char) :=
  [("break", 'b'), ("cd", 'C'), ("comment", '#'), ("continue", 'c'),
   ("delete", 'd'), ("down", 'D'), ("edit", 'e'), ("expand", 'x'),
   ("finish", 'F'), ("frame", 'f'), ("help", 'h'), ("info", 'i'),
   ("list", 'l'), ("load", 'M'), ("next", 'n'), ("print", 'p'),
   ("pwd", 'P'), ("quit", 'q'), ("run", 'R'), ("set", '='),
   ("setq", dquoteChar), ("setqx", backquoteChar), ("shell", '!'),
   ("show", 'S'), ("skip", 'k'), ("source", '<'), ("step", 's'),
   ("target", 't'), ("up", 'u'), ("where", 'T'), ("write", 'w')]

/-- The `aliases` table of `cmd.c` lines 133-143: pairs
(real command name, alias), in alphabetic order by alias. -/
def aliases : List (String × String) :=
  [("shell", "!!"), ("help", "?"), ("break", "L"), ("where", "backtrace"),
   ("where", "bt"), ("quit", "exit"), ("run", "restart"), ("quit", "return")]

/-- C `strcmp` on NUL-terminated strings, as a three-way comparison
(a shorter string compares below any extension of it, otherwise the
first differing character decides). -/
def strcmp : List Char → List Char → Ordering
  | [], [] => Ordering.eq
  | [], _ :: _ => Ordering.lt
  | _ :: _, [] => Ordering.gt
  | a :: as, b :: bs =>
    if a.toNat < b.toNat then Ordering.lt
    else if b.toNat < a.toNat then Ordering.gt
    else strcmp as bs

/-- The alias scan of `find_command` (`cmd.c` lines 159-168): walk the
alias table in order; on an exact match substitute the real command
name; stop early (keeping the token) once the token compares below the
current alias. -/
def scanAliases : List (String × String) → String → String
  | [], n => n
  | (cmd, al) :: rest, n =>
    match strcmp n.data al.data with
    | Ordering.eq => cmd
    | Ordering.lt => n
    | Ordering.gt => scanAliases rest n

/-- The command scan of `find_command` (`cmd.c` lines 170-178): walk
the command table in order; an exact match yields the short code
indexing the handler slot; stop early (unresolved) once the token
compares below the current name. -/
def scanCommands : List (String × Char) → String → Option Char
  | [], _ => none
  | (cname, code) :: rest, n =>
    match strcmp n.data cname.data with
    | Ordering.eq => some code
    | Ordering.lt => none
    | Ordering.gt => scanCommands rest n

/-- `find_command` of `cmd.c` lines 154-181: resolve the token through
the alias table, then through the command table, to a handler slot
(identified by its short code). -/
def find_command (psz_name : String) : Option Char :=
  scanCommands commands (scanAliases aliases psz_name)

/-- The set of short codes whose handler slot gets a non-NULL `func`
during the one-time registry setup (`cmd_initialize`, `cmd.c` lines
254-289); every other entry of `short_command[256]` keeps a NULL
`func`. -/
def registered_short_codes : List Char :=
  ['b', 'C', '#', 'c', 'd', 'D', 'e', 'x', 'F', 'f', 'h', 'i', 'l', 'M',
   'n', 'p', 'P', 'q', 'R', '=', dquoteChar, backquoteChar, '!', 'S', 'k',
   '<', 's', 't', 'u', 'T', 'w']

/-- Whether `short_command[c].func` is non-NULL after the one-time
setup. -/
def short_has_func (c : Char) : Bool :=
  registered_short_codes.contains c

/-- The command-resolution path of `execute_line` (`cmd.c` lines
292-311): a token of length 1 is looked up directly in the
code-indexed slot table (taken if its `func` is non-NULL); any longer
token goes through `find_command`.  The result identifies the handler
slot by its short code, `none` meaning "No such debugger command". -/
def resolve_command (psz_word : String) : Option Char :=
  if psz_word.length = 1 then
    let c := psz_word.data.headD ' '
    if short_has_func c then some c else none
  else
    find_command psz_word

/-! ## Debugger entry and stepping/breakpoint state machine
(`enter_debugger`, `cmd.c` lines 398-557) -/

/-- The values taken by the global `in_debugger`: `false`, `true`, and
the distinguished `DEBUGGER_QUIT_RC` (modelled from the spec:
"guaranteed-quit terminal state"; the constant itself is declared
outside `src/`). -/
inductive InDbg where
  | off
  | on
  | quitRC
deriving DecidableEq, Repr

/-- Modelled from the spec: "BreakReason (closed enumeration):
after-command, before-prerequisite, after-prerequisite, on-error,
on-fatal-error, manual-request" (the C enum `debug_enter_reason_t` is
declared outside `src/`; `cmd.c` matches on the three
`DEBUG_BRKPT_AFTER_CMD` / `DEBUG_BRKPT_BEFORE_PREREQ` /
`DEBUG_BRKPT_AFTER_PREREQ` members). -/
inductive Reason where
  | afterCmd
  | beforePrereq
  | afterPrereq
  | onError
  | onFatal
  | manual
deriving DecidableEq, Repr

/-- The frame (target) as this core reads and writes it: its tracing
bit-flags.  Modelled from the spec: "per-frame tracing bit-flags
(active/temporary)"; `BRK_TEMP` is the temporary bit, `BRK_NONE` is no
bits (the bit constants live in `break.h`, outside `src/`). -/
structure Frame where
  tracing : Nat
deriving DecidableEq, Repr

/-- No tracing bits set. -/
def BRK_NONE : Nat := 0

/-- The temporary-breakpoint bit (modelled from the spec; the exact
bit position is immaterial, `8` is used). -/
def BRK_TEMP : Nat := 8

/-- The process-wide debugger state read and written by
`enter_debugger`: the `in_debugger` global, the step/next counters
`i_debugger_stepping` / `i_debugger_nexting`, the `last_stop_reason`
global, the `debugger_on_error` configuration flag, and the `makelevel`
recursion level of the build engine. -/
structure DbgState where
  inDebugger : InDbg
  stepping : Nat
  nexting : Nat
  lastStopReason : Reason
  debuggerOnError : Bool
  makelevel : Nat
deriving DecidableEq, Repr

/-- The silent-resume decision of `enter_debugger` (`cmd.c` lines
411-424), evaluated after `last_stop_reason` has been assigned: the
guaranteed-quit check, the counted step/next branch (decrementing every
nonzero counter), and the no-reason-to-stop branch.  Returns the
updated state and `true` when the engagement resumes silently
(`return continue_execution`).  The target frame is assumed present
(the `p_target &&` conjunct of line 423 holds; line 420 dereferences
it unconditionally). -/
def silent_check (s : DbgState) (t : Frame) (errcode : Int) : DbgState × Bool :=
  if s.inDebugger = InDbg.quitRC then
    (s, true)
  else if 1 < s.stepping ∨ 1 < s.nexting then
    let s1 : DbgState := { s with stepping := s.stepping - 1, nexting := s.nexting - 1 }
    if t.tracing = 0 then (s1, true) else (s1, false)
  else if s.debuggerOnError = false ∧ s.stepping = 0 ∧ s.nexting = 0 ∧
          t.tracing = 0 ∧ errcode ≠ -2 then
    (s, true)
  else
    (s, false)

/-- Whether a stop reason is in the one-shot clearing subset of the
`switch` at `cmd.c` lines 428-436. -/
def qualifies (r : Reason) : Bool :=
  match r with
  | Reason.afterCmd => true
  | Reason.beforePrereq => true
  | Reason.afterPrereq => true
  | _ => false

/-- The temporary-breakpoint clearing of `cmd.c` lines 426-436: if the
frame's tracing field has the temporary bit and `last_stop_reason` is
in the qualifying subset, the entire tracing field is assigned
`BRK_NONE`. -/
def clear_temp (s : DbgState) (t : Frame) : Frame :=
  if t.tracing &&& BRK_TEMP ≠ 0 ∧ qualifies s.lastStopReason = true then
    { t with tracing := BRK_NONE }
  else
    t

/-- The engaged part of `enter_debugger` (`cmd.c` lines 426-556):
temporary-breakpoint clearing, `in_debugger = true`, the banner keyed
by the error code -- where the termination sentinel `-2` at a nested
`makelevel` forces `in_debugger = DEBUGGER_QUIT_RC` (lines 494-500) --
then the interactive read-eval loop, whose terminal control signal is
supplied as `loopResult` (the commands executed in it are external to
this decision), and finally the reset of `in_debugger` to `false`
unless it is `DEBUGGER_QUIT_RC` (lines 553-554). -/
def engage_session (s : DbgState) (t : Frame) (errcode : Int)
    (loopResult : DebugReturn) : DbgState × Frame × DebugReturn :=
  let t1 := clear_temp s t
  let s1 : DbgState := { s with inDebugger := InDbg.on }
  let s2 : DbgState :=
    if errcode = -2 ∧ s1.makelevel ≠ 0 then { s1 with inDebugger := InDbg.quitRC } else s1
  let s3 : DbgState :=
    if s2.inDebugger ≠ InDbg.quitRC then { s2 with inDebugger := InDbg.off } else s2
  (s3, t1, loopResult)

/-- `enter_debugger` of `cmd.c` lines 398-557: assign
`last_stop_reason` (line 409, unconditionally, before any decision),
consult the silent-resume decision, and either return
`continue_execution` at once or run the engaged part.  Returns the
updated process-wide state, the updated frame, and the control signal
handed back to the build engine. -/
def enter_debugger (s : DbgState) (t : Frame) (errcode : Int) (reason : Reason)
    (loopResult : DebugReturn) : DbgState × Frame × DebugReturn :=
  let s0 : DbgState := { s with lastStopReason := reason }
  let chk := silent_check s0 t errcode
  if chk.2 then
    (chk.1, t, DebugReturn.continueExec)
  else
    engage_session chk.1 t errcode loopResult

/-! ## Helper lemmas -/

/-- The silent-resume decision never touches `in_debugger`,
`last_stop_reason`, `debugger_on_error` or `makelevel`; it only ever
decrements the step/next counters. -/
theorem silent_check_fst_fields (s : DbgState) (t : Frame) (e : Int) :
    (silent_check s t e).1.inDebugger = s.inDebugger
    ∧ (silent_check s t e).1.lastStopReason = s.lastStopReason
    ∧ (silent_check s t e).1.debuggerOnError = s.debuggerOnError
    ∧ (silent_check s t e).1.makelevel = s.makelevel := by
  unfold silent_check
  split_ifs <;> simp

/-- When the decision is not to resume silently, `enter_debugger` runs
the engaged part on the updated state. -/
theorem enter_debugger_engaged_eq (s : DbgState) (t : Frame) (e : Int) (r : Reason)
    (lr : DebugReturn)
    (heng : (silent_check { s with lastStopReason := r } t e).2 = false) :
    enter_debugger s t e r lr
      = engage_session (silent_check { s with lastStopReason := r } t e).1 t e lr := by
  unfold enter_debugger
  simp [heng]

/-- The frame returned by the engaged part is the temporary-clearing
result. -/
theorem engage_session_frame (s : DbgState) (t : Frame) (e : Int) (lr : DebugReturn) :
    (engage_session s t e lr).2.1 = clear_temp s t := rfl

/-- The engaged part with the termination sentinel at a nested level
leaves `in_debugger` in the guaranteed-quit state. -/
theorem engage_session_quit (s : DbgState) (t : Frame) (lr : DebugReturn)
    (h : s.makelevel ≠ 0) :
    (engage_session s t (-2) lr).1.inDebugger = InDbg.quitRC := by
  unfold engage_session
  simp [h]

/-- Temporary clearing fires on a qualifying reason with the temporary
bit set, assigning the whole tracing field `BRK_NONE`. -/
theorem clear_temp_of_qualifies (s : DbgState) (t : Frame)
    (htemp : t.tracing &&& BRK_TEMP ≠ 0)
    (hq : qualifies s.lastStopReason = true) :
    clear_temp s t = { t with tracing := BRK_NONE } := by
  unfold clear_temp
  rw [if_pos ⟨htemp, hq⟩]

/-- Temporary clearing leaves the frame alone on a non-qualifying
reason. -/
theorem clear_temp_of_not_qualifies (s : DbgState) (t : Frame)
    (hq : qualifies s.lastStopReason = false) :
    clear_temp s t = t := by
  unfold clear_temp
  rw [if_neg]
  rintro ⟨-, h⟩
  rw [hq] at h
  exact Bool.noConfusion h

/-! ## Claim theorems -/

/-- C1, counterexample: starting from stepCount=3, nextCount=0 and an
untraced frame, the THIRD candidate engagement already stops (it
returns the interactive session's terminal signal, here
`quitDebugger`, not `continueExec`), and the step counter at that
point is 1, not 0 -- refuting "three engagements resume silently with
counters 2,1,0 and the fourth stops". -/
theorem step_count_three_counterexample :
    (enter_debugger
      ((enter_debugger
        ((enter_debugger ⟨InDbg.off, 3, 0, Reason.manual, false, 0⟩ ⟨0⟩ 0
            Reason.beforePrereq DebugReturn.quitDebugger).1)
        ⟨0⟩ 0 Reason.beforePrereq DebugReturn.quitDebugger).1)
      ⟨0⟩ 0 Reason.beforePrereq DebugReturn.quitDebugger)
    = (⟨InDbg.off, 1, 0, Reason.beforePrereq, false, 0⟩, ⟨0⟩, DebugReturn.quitDebugger)
    ∧ DebugReturn.quitDebugger ≠ DebugReturn.continueExec := by decide

/-- C1 (amended): for the stepping state machine started with
stepCount=3, nextCount=0 and no trace flag on the frame, the first TWO
candidate engagements resume silently, leaving the step counter at 2
then 1; the THIRD engagement stops (enters the interactive loop), with
the counter remaining 1 (the stopping engagement does not decrement
it). -/
theorem step_count_three_amended (r1 r2 r3 : Reason) (lr : DebugReturn) :
    enter_debugger ⟨InDbg.off, 3, 0, Reason.manual, false, 0⟩ ⟨0⟩ 0 r1 lr
      = (⟨InDbg.off, 2, 0, r1, false, 0⟩, ⟨0⟩, DebugReturn.continueExec)
    ∧ enter_debugger ⟨InDbg.off, 2, 0, r1, false, 0⟩ ⟨0⟩ 0 r2 lr
      = (⟨InDbg.off, 1, 0, r2, false, 0⟩, ⟨0⟩, DebugReturn.continueExec)
    ∧ (silent_check ⟨InDbg.off, 1, 0, r3, false, 0⟩ ⟨0⟩ 0).2 = false
    ∧ enter_debugger ⟨InDbg.off, 1, 0, r2, false, 0⟩ ⟨0⟩ 0 r3 lr
      = (⟨InDbg.off, 1, 0, r3, false, 0⟩, ⟨0⟩, lr) :=
  ⟨rfl, rfl, rfl, rfl⟩

/-- C2, counterexample: the alias pair ("help", "?") is in the alias
table, but resolving the token "?" through the command-resolution path
of `execute_line` yields no handler slot (its single character is not
a registered shortcut), while resolving the canonical name "help"
yields the slot 'h'. -/
theorem alias_single_char_counterexample :
    ("help", "?") ∈ aliases
    ∧ resolve_command "?" = none
    ∧ resolve_command "help" = some 'h'
    ∧ resolve_command "?" ≠ resolve_command "help" := by decide

/-- C2 (amended): `find_command` maps every alias to the same handler
slot as its canonical command name; through the command-resolution
path of `execute_line`, however, only the aliases of length at least 2
behave that way, because a length-1 token is looked up directly in the
shortcut slot table -- so the single-character aliases "?" and "L"
resolve to nothing there. -/
theorem alias_resolution_amended :
    (aliases.all fun p => find_command p.2 == find_command p.1) = true
    ∧ (aliases.all fun p =>
        (p.2.length == 1) || (resolve_command p.2 == resolve_command p.1)) = true
    ∧ resolve_command "?" = none
    ∧ resolve_command "L" = none := by decide

/-- C3: evaluation of the code at the failing input.  `set trace on`
updates `silent_flag` (the `trace` branch with a nonempty argument
passes `&silent_flag`, `set.h` line 120) and leaves the
`no_shell_trace` flag this option is bound to unchanged; only the
no-argument form (`set trace`) toggles `no_shell_trace`.  This
contradicts the claim (and the option table binding `trace` to
`&no_shell_trace`): the code is a slip. -/
theorem set_trace_explicit_arg_bug (ef : List Char → List Char) (st : SetState) :
    dbg_cmd_set ef "trace on".data st
      = ({ st with flags := { st.flags with silent_flag := true } }, DebugReturn.readloop)
    ∧ (dbg_cmd_set ef "trace on".data st).1.flags.no_shell_trace = st.flags.no_shell_trace
    ∧ dbg_cmd_set ef "trace".data st
      = ({ st with flags :=
            { st.flags with no_shell_trace := !st.flags.no_shell_trace } },
         DebugReturn.readloop) :=
  ⟨rfl, rfl, rfl⟩

/-- C4: evaluation of the code at the failing input.  With an existing
binding FOO="old", assigning via "$FOO bar" finds the binding through
the sigil-stripped retry but then defines under the resolved name with
the ORIGINAL name's length `u_len` (4), i.e. under the byte key
"FOO\x00" -- a wholly new binding -- leaving the "FOO" binding at
"old".  Reading "FOO" afterwards does NOT observe the assigned value,
contradicting the claim (and the handler's own contract of never
creating a new binding). -/
theorem sigil_assignment_misses_binding :
    (lookup_variable
      (dbg_cmd_set_var (fun v => v) (some "$FOO bar".data) false
        [⟨"FOO".data, "old".data, Origin.o_file⟩]).1
      "FOO".data 3).map Variable.value = some "old".data
    ∧ (dbg_cmd_set_var (fun v => v) (some "$FOO bar".data) false
        [⟨"FOO".data, "old".data, Origin.o_file⟩]).1
      = [⟨"FOO".data, "old".data, Origin.o_file⟩,
         ⟨['F', 'O', 'O', nulChar], "bar".data, Origin.o_debugger⟩] := by decide

/-- C5, counterexample: with an active step countdown
(stepping = 5 > 1) and an untraced frame, a call carrying the
termination sentinel (-2) at a nested level (makelevel = 3) resumes
silently WITHOUT being forced into the guaranteed-quit state --
refuting the unconditional "is forced into a guaranteed-quit terminal
state". -/
theorem termination_nested_counterexample :
    enter_debugger ⟨InDbg.off, 5, 0, Reason.manual, false, 3⟩ ⟨0⟩ (-2)
        Reason.onError DebugReturn.quitDebugger
      = (⟨InDbg.off, 4, 0, Reason.onError, false, 3⟩, ⟨0⟩, DebugReturn.continueExec)
    ∧ InDbg.off ≠ InDbg.quitRC := by decide

/-- C5 (amended): (1) once in the guaranteed-quit state, every call to
`enter_debugger` returns `continue_execution` immediately, changing
nothing but the (unconditionally recorded) last stop reason -- in
particular the state is never reset; (2) if the termination sentinel
(-2) arrives at a nested level and the engagement is not silently
skipped, the state is forced to guaranteed-quit; (3) with the
termination sentinel, a silent skip can only come from an active
step/next countdown (counter > 1): with both counters at most 1 (and
not already in guaranteed-quit) the engagement always happens. -/
theorem termination_nested_amended :
    (∀ (s : DbgState) (t : Frame) (e : Int) (r : Reason) (lr : DebugReturn),
      s.inDebugger = InDbg.quitRC →
      enter_debugger s t e r lr
        = ({ s with lastStopReason := r }, t, DebugReturn.continueExec))
    ∧ (∀ (s : DbgState) (t : Frame) (r : Reason) (lr : DebugReturn),
      (silent_check { s with lastStopReason := r } t (-2)).2 = false →
      s.makelevel ≠ 0 →
      (enter_debugger s t (-2) r lr).1.inDebugger = InDbg.quitRC)
    ∧ (∀ (s : DbgState) (t : Frame) (r : Reason),
      s.inDebugger ≠ InDbg.quitRC → s.stepping ≤ 1 → s.nexting ≤ 1 →
      (silent_check { s with lastStopReason := r } t (-2)).2 = false) := by
  refine ⟨?_, ?_, ?_⟩
  · intro s t e r lr h
    simp [enter_debugger, silent_check, h]
  · intro s t r lr heng hml
    rw [enter_debugger_engaged_eq _ _ _ _ _ heng]
    apply engage_session_quit
    rw [(silent_check_fst_fields _ _ _).2.2.2]
    exact hml
  · intro s t r hq hs hn
    unfold silent_check
    split_ifs with h1 h2 h3 h4
    · exact absurd (by simpa using h1) hq
    · simp only [DbgState.stepping] at h2
      rcases h2 with h | h <;> omega
    · simp only [DbgState.stepping] at h2
      rcases h2 with h | h <;> omega
    · exact absurd rfl h4.2.2.2.2
    · rfl

/-- C5 witness: the amended theorem applied at concrete inputs. -/
theorem termination_nested_amended_witness :
    enter_debugger ⟨InDbg.quitRC, 0, 0, Reason.manual, false, 2⟩ ⟨0⟩ 0
        Reason.onError DebugReturn.readloop
      = (⟨InDbg.quitRC, 0, 0, Reason.onError, false, 2⟩, ⟨0⟩, DebugReturn.continueExec)
    ∧ (enter_debugger ⟨InDbg.off, 0, 0, Reason.manual, false, 2⟩ ⟨0⟩ (-2)
        Reason.onFatal DebugReturn.readloop).1.inDebugger = InDbg.quitRC
    ∧ (silent_check ⟨InDbg.off, 0, 0, Reason.onFatal, false, 2⟩ ⟨0⟩ (-2)).2 = false :=
  ⟨termination_nested_amended.1 _ _ _ _ _ rfl,
   termination_nested_amended.2.1 _ _ _ _ (by decide) (by decide),
   termination_nested_amended.2.2 ⟨InDbg.off, 0, 0, Reason.onFatal, false, 2⟩ ⟨0⟩
     Reason.onFatal (by decide) (by decide) (by decide)⟩

/-- C6: when the debugger engages on a frame whose temporary bit is
set, a stop reason in {after-command, before-prerequisite,
after-prerequisite} clears the frame's tracing (so a later engagement
on that frame sees no trace flag at all), and any other stop reason
leaves the frame unchanged. -/
theorem temp_breakpoint_one_shot (s : DbgState) (t : Frame) (e : Int) (r : Reason)
    (lr : DebugReturn)
    (heng : (silent_check { s with lastStopReason := r } t e).2 = false)
    (htemp : t.tracing &&& BRK_TEMP ≠ 0) :
    (qualifies r = true → (enter_debugger s t e r lr).2.1.tracing = BRK_NONE)
    ∧ (qualifies r = false → (enter_debugger s t e r lr).2.1 = t) := by
  have h1 := enter_debugger_engaged_eq s t e r lr heng
  have h2 : (silent_check { s with lastStopReason := r } t e).1.lastStopReason = r := by
    rw [(silent_check_fst_fields _ _ _).2.1]
  constructor
  · intro hq
    rw [h1, engage_session_frame, clear_temp_of_qualifies _ _ htemp (by rw [h2]; exact hq)]
  · intro hq
    rw [h1, engage_session_frame, clear_temp_of_not_qualifies _ _ (by rw [h2]; exact hq)]

/-- C6 witness: the theorem applied at a concrete engagement, both for
a qualifying and a non-qualifying reason. -/
theorem temp_breakpoint_one_shot_witness :
    (enter_debugger ⟨InDbg.off, 0, 0, Reason.manual, true, 0⟩ ⟨8⟩ 0
        Reason.afterCmd DebugReturn.readloop).2.1.tracing = BRK_NONE
    ∧ (enter_debugger ⟨InDbg.off, 0, 0, Reason.manual, true, 0⟩ ⟨8⟩ 0
        Reason.onError DebugReturn.readloop).2.1 = (⟨8⟩ : Frame) :=
  ⟨(temp_breakpoint_one_shot _ _ _ _ _ (by decide) (by decide)).1 (by decide),
   (temp_breakpoint_one_shot _ _ _ _ _ (by decide) (by decide)).2 (by decide)⟩

/-- C7: in the toggle subsystem, a first word that matches no option
under the per-option minimum-prefix rule (which includes every prefix
shorter than the option's threshold) changes no option flag; the
prefix "deb" (length 3 ≥ threshold 3) resolves to the `debug` option
and sets its mask; the prefix "d" matches no option and changes no
flag. -/
theorem set_option_unmatched_rejected :
    (∀ (ef : List Char → List Char) (psz_args : List Char) (st : SetState),
      psz_args.length ≠ 0 →
      is_abbrev_of (get_word psz_args).1 "variable".data 3 = false →
      is_abbrev_of (get_word psz_args).1 "basename".data 4 = false →
      is_abbrev_of (get_word psz_args).1 "debug".data 3 = false →
      is_abbrev_of (get_word psz_args).1 "ignore-errors".data 3 = false →
      is_abbrev_of (get_word psz_args).1 "keep-going".data 3 = false →
      is_abbrev_of (get_word psz_args).1 "silent".data 3 = false →
      is_abbrev_of (get_word psz_args).1 "trace".data 3 = false →
      (dbg_cmd_set ef psz_args st).1.flags = st.flags)
    ∧ (∀ (ef : List Char → List Char) (st : SetState),
      dbg_cmd_set ef "deb 4".data st
        = ({ st with flags := { st.flags with db_level := 4 } }, DebugReturn.readloop))
    ∧ (∀ (ef : List Char → List Char) (st : SetState),
      (dbg_cmd_set ef "d on".data st).1.flags = st.flags) := by
  refine ⟨?_, ?_, ?_⟩
  · intro ef psz_args st h0 h1 h2 h3 h4 h5 h6 h7
    unfold dbg_cmd_set
    simp [h0, h1, h2, h3, h4, h5, h6, h7]
  · intro ef st
    rfl
  · intro ef st
    rfl

/-- C7 witness: the general rejection conjunct applied at the concrete
unmatched token "zzz". -/
theorem set_option_unmatched_rejected_witness :
    (dbg_cmd_set (fun v => v) "zzz on".data
        ⟨⟨false, 0, false, false, false, false⟩, []⟩).1.flags
      = (⟨⟨false, 0, false, false, false, false⟩, []⟩ : SetState).flags :=
  set_option_unmatched_rejected.1 (fun v => v) "zzz on".data _
    (by decide) (by decide) (by decide) (by decide) (by decide) (by decide)
    (by decide) (by decide)

/-- C8, counterexample: a silent resume (no counters, no trace flag,
no error) still overwrites the process-wide last stop reason -- here
from after-command to on-error -- refuting "the last-stop-reason is
recorded only when the debugger actually engages, and stays unchanged
across a silent resume". -/
theorem last_stop_reason_counterexample :
    enter_debugger ⟨InDbg.off, 0, 0, Reason.afterCmd, false, 0⟩ ⟨0⟩ 0
        Reason.onError DebugReturn.readloop
      = (⟨InDbg.off, 0, 0, Reason.onError, false, 0⟩, ⟨0⟩, DebugReturn.continueExec)
    ∧ Reason.onError ≠ Reason.afterCmd := by decide

/-- C8 (amended): when the state machine decides to resume silently,
`enter_debugger` returns `continue_execution` immediately with the
frame untouched, and the only state it may have changed besides the
step/next counters is the last stop reason, which is recorded
UNCONDITIONALLY at entry (before the decision) and therefore reflects
the silently-resumed engagement too. -/
theorem silent_resume_amended (s : DbgState) (t : Frame) (e : Int) (r : Reason)
    (lr : DebugReturn)
    (h : (silent_check { s with lastStopReason := r } t e).2 = true) :
    enter_debugger s t e r lr
      = ((silent_check { s with lastStopReason := r } t e).1, t, DebugReturn.continueExec)
    ∧ (silent_check { s with lastStopReason := r } t e).1.lastStopReason = r
    ∧ (silent_check { s with lastStopReason := r } t e).1.inDebugger = s.inDebugger
    ∧ (silent_check { s with lastStopReason := r } t e).1.debuggerOnError
        = s.debuggerOnError
    ∧ (silent_check { s with lastStopReason := r } t e).1.makelevel = s.makelevel := by
  refine ⟨?_, ?_, ?_, ?_, ?_⟩
  · unfold enter_debugger
    simp [h]
  · rw [(silent_check_fst_fields _ _ _).2.1]
  · rw [(silent_check_fst_fields _ _ _).1]
  · rw [(silent_check_fst_fields _ _ _).2.2.1]
  · rw [(silent_check_fst_fields _ _ _).2.2.2]

/-- C8 witness: the amended theorem applied at a concrete counted-step
silent resume. -/
theorem silent_resume_amended_witness :
    enter_debugger ⟨InDbg.off, 5, 0, Reason.manual, false, 0⟩ ⟨0⟩ 0
        Reason.onError DebugReturn.readloop
      = (⟨InDbg.off, 4, 0, Reason.onError, false, 0⟩, ⟨0⟩, DebugReturn.continueExec) := by
  have h := silent_resume_amended ⟨InDbg.off, 5, 0, Reason.manual, false, 0⟩ ⟨0⟩ 0
      Reason.onError DebugReturn.readloop (by decide)
  exact h.1

/-- C9: evaluation of the code at the failing input.  The
missing-argument contract holds (NULL or empty argument text writes
nothing and returns the continue-looping signal), and the first
whitespace-delimited token is taken as the name; but the stored value
text is NOT the remainder with leading whitespace removed: for
"FOO  bar" (two spaces) the loop `*psz_args += 1` INCREMENTS the
leftover space character instead of advancing past it, storing "!bar"
rather than "bar". -/
theorem set_var_value_text_bug :
    (lookup_variable
      (dbg_cmd_set_var (fun v => v) (some "FOO  bar".data) false
        [⟨"FOO".data, "old".data, Origin.o_file⟩]).1
      "FOO".data 3).map Variable.value = some "!bar".data
    ∧ dbg_cmd_set_var (fun v => v) none false [⟨"FOO".data, "old".data, Origin.o_file⟩]
      = ([⟨"FOO".data, "old".data, Origin.o_file⟩], DebugReturn.readloop)
    ∧ dbg_cmd_set_var (fun v => v) (some []) false
        [⟨"FOO".data, "old".data, Origin.o_file⟩]
      = ([⟨"FOO".data, "old".data, Origin.o_file⟩], DebugReturn.readloop) := by decide

/-- C10: when the one-shot clearing fires (engagement, temporary bit
set, qualifying reason), the frame's ENTIRE tracing field is assigned
none -- even when the frame carries further (persistent) tracing bits
besides the temporary one, they are all erased, not just the temporary
bit. -/
theorem temp_clear_erases_persistent_bits (s : DbgState) (t : Frame) (e : Int)
    (r : Reason) (lr : DebugReturn)
    (heng : (silent_check { s with lastStopReason := r } t e).2 = false)
    (htemp : t.tracing &&& BRK_TEMP ≠ 0)
    (hpersist : t.tracing ^^^ BRK_TEMP ≠ 0)
    (hq : qualifies r = true) :
    (enter_debugger s t e r lr).2.1.tracing = BRK_NONE := by
  have h2 : (silent_check { s with lastStopReason := r } t e).1.lastStopReason = r := by
    rw [(silent_check_fst_fields _ _ _).2.1]
  rw [enter_debugger_engaged_eq _ _ _ _ _ heng, engage_session_frame,
    clear_temp_of_qualifies _ _ htemp (by rw [h2]; exact hq)]

/-- C10 witness: the theorem applied at a frame carrying both the
temporary bit (8) and a persistent bit (1). -/
theorem temp_clear_erases_persistent_bits_witness :
    (enter_debugger ⟨InDbg.off, 0, 0, Reason.manual, true, 0⟩ ⟨9⟩ 0
        Reason.beforePrereq DebugReturn.readloop).2.1.tracing = BRK_NONE :=
  temp_clear_erases_persistent_bits _ _ _ _ _ (by decide) (by decide) (by decide)
    (by decide)

end Remake
